import Mathlib

/-!
Shallow embedding of the gocomet-ride dispatch-and-lifecycle engine.

Numbers that the Python code handles as floats (fares, coordinates,
durations, surge multipliers, timestamps) are modelled as exact rationals
(`ℚ`); the transcendental great-circle geometry (`haversine_km` and the
matcher's SQL distance expression) is modelled separately over `ℝ`.
Python's `round(x, 2)` (round-half-to-even at two decimals) is modelled
exactly by `roundHalfEven`.

Persistent state (Postgres tables) and the Redis stores are modelled as
lists of records; SQL `UPDATE ... WHERE id = $1` becomes a map over the
list, `SELECT ... WHERE id = $1` becomes `List.find?`.  An HTTP handler
that raises `HTTPException` inside its transaction rolls the transaction
back, so a handler is modelled as a function returning
`Except ApiError (Response × World)`: an `.error` outcome leaves the
world untouched.
-/

namespace GocometRide

/-- Python `round` at integer precision: round half to even. -/
def roundHalfEven (q : ℚ) : ℤ :=
  if q - ⌊q⌋ < 1/2 then ⌊q⌋
  else if q - ⌊q⌋ > 1/2 then ⌊q⌋ + 1
  else if ⌊q⌋ % 2 = 0 then ⌊q⌋ else ⌊q⌋ + 1

/-- Python `round(x, 2)`. -/
def round2 (q : ℚ) : ℚ := (roundHalfEven (q * 100) : ℚ) / 100

/-- `BASE_FARE.get(tier, 30)` from `app/services/pricing.py`. -/
def BASE_FARE_get (tier : String) : ℚ :=
  if tier = "standard" then 30 else if tier = "premium" then 60
  else if tier = "xl" then 80 else 30

/-- `RATE_PER_KM.get(tier, 12)` from `app/services/pricing.py`. -/
def RATE_PER_KM_get (tier : String) : ℚ :=
  if tier = "standard" then 12 else if tier = "premium" then 20
  else if tier = "xl" then 18 else 12

/-- `RATE_PER_MIN.get(tier, 1.5)` from `app/services/pricing.py`. -/
def RATE_PER_MIN_get (tier : String) : ℚ :=
  if tier = "standard" then 3/2 else if tier = "premium" then 5/2
  else if tier = "xl" then 2 else 3/2

/-- `calculate_fare` from `app/services/pricing.py`. -/
def calculate_fare (tier : String) (distance_km duration_minutes surge : ℚ) : ℚ :=
  round2 ((BASE_FARE_get tier
    + RATE_PER_KM_get tier * distance_km
    + RATE_PER_MIN_get tier * duration_minutes) * surge)

/-- `estimate_fare` from `app/services/pricing.py`.  The great-circle
distance primitive `dist` (the float `haversine_km`) is passed in as a
parameter; its exact real-number semantics is `haversine_km` below, and
claim C6 relates it to the matcher's SQL distance. -/
def estimate_fare (dist : ℚ → ℚ → ℚ → ℚ → ℚ) (tier : String)
    (pickup_lat pickup_lng dest_lat dest_lng surge : ℚ) : ℚ :=
  let d := dist pickup_lat pickup_lng dest_lat dest_lng
  let duration := (d / 30) * 60
  calculate_fare tier d duration surge

/-- Spec-side per-tier base table: `base {standard:30, premium:60, xl:80}`,
unrecognized tier falls back to the standard constant. -/
def specBase (tier : String) : ℚ :=
  if tier = "premium" then 60 else if tier = "xl" then 80 else 30

/-- Spec-side per-km table: `perKm {standard:12, premium:20, xl:18}`. -/
def specPerKm (tier : String) : ℚ :=
  if tier = "premium" then 20 else if tier = "xl" then 18 else 12

/-- Spec-side per-minute table: `perMin {standard:1.5, premium:2.5, xl:2.0}`. -/
def specPerMin (tier : String) : ℚ :=
  if tier = "premium" then 5/2 else if tier = "xl" then 2 else 3/2

/-! ### Keyed lists: SQL tables and Redis keyspaces

A table is a list of records; `findK` is `SELECT ... WHERE key = k LIMIT 1`,
`updF` is `UPDATE ... SET ... WHERE key = k`. -/

section KeyedList

variable {α κ : Type} [DecidableEq κ]

/-- First record whose key equals `k`. -/
def findK (key : α → κ) (l : List α) (k : κ) : Option α :=
  l.find? (fun x => decide (key x = k))

/-- Apply `f` to every record whose key equals `k`. -/
def updF (key : α → κ) (l : List α) (k : κ) (f : α → α) : List α :=
  l.map (fun x => if key x = k then f x else x)

end KeyedList

/-! ### Data model (tables from `app/core/database.py`)

Record ids (UUIDs) are strings; `NOW()` timestamps are naturals (unix
seconds).  Freshly generated ids for inserted rows are passed in as
arguments, standing for `gen_random_uuid()`. -/

/-- Row of the `drivers` table. -/
structure Driver where
  id : String
  name : String
  phone : String
  tier : String
  status : String
  latitude : Option ℚ
  longitude : Option ℚ
deriving DecidableEq

/-- Row of the `rides` table. -/
structure Ride where
  id : String
  rider_id : String
  driver_id : Option String
  pickup_lat : ℚ
  pickup_lng : ℚ
  dest_lat : ℚ
  dest_lng : ℚ
  pickup_address : Option String
  dest_address : Option String
  tier : String
  payment_method : String
  status : String
  surge_multiplier : ℚ
  estimated_fare : Option ℚ
  final_fare : Option ℚ
  idempotency_key : Option String
  created_at : ℕ
  updated_at : ℕ
deriving DecidableEq

/-- Row of the `trips` table. -/
structure Trip where
  id : String
  ride_id : String
  started_at : Option ℕ
  paused_at : Option ℕ
  ended_at : Option ℕ
  distance_km : ℚ
  duration_minutes : ℚ
  fare : Option ℚ
deriving DecidableEq

/-- Row of the `payments` table. -/
structure Payment where
  id : String
  ride_id : String
  rider_id : String
  amount : ℚ
  method : String
  status : String
  psp_ref : Option String
  idempotency_key : Option String
deriving DecidableEq

/-- Redis `demand:{cell}` counter; `expiry = none` means no TTL set. -/
structure DemandEntry where
  cell : ℚ × ℚ
  count : ℕ
  expiry : Option ℕ
deriving DecidableEq

/-- Redis `idem:ride:{key}` entry: the cached create-ride response. -/
structure IdemRideEntry where
  token : String
  response : Ride
  expiry : ℕ
deriving DecidableEq

/-- Redis `idem:pay:{key}` entry: the cached create-payment response. -/
structure IdemPaymentEntry where
  token : String
  response : Payment
  expiry : ℕ
deriving DecidableEq

/-- The shared persistent state: the Postgres tables plus the Redis keys
the claims depend on. -/
structure World where
  drivers : List Driver
  rides : List Ride
  trips : List Trip
  payments : List Payment
  demand : List DemandEntry
  idemRides : List IdemRideEntry
  idemPayments : List IdemPaymentEntry
deriving DecidableEq

def findDriver (w : World) (k : String) : Option Driver := findK Driver.id w.drivers k

def findRide (w : World) (k : String) : Option Ride := findK Ride.id w.rides k

def findTrip (w : World) (k : String) : Option Trip := findK Trip.id w.trips k

def findPayment (w : World) (k : String) : Option Payment := findK Payment.id w.payments k

/-- `UPDATE drivers ... WHERE id = k`. -/
def updDriver (w : World) (k : String) (f : Driver → Driver) : World :=
  { w with drivers := updF Driver.id w.drivers k f }

/-- `UPDATE rides ... WHERE id = k`. -/
def updRide (w : World) (k : String) (f : Ride → Ride) : World :=
  { w with rides := updF Ride.id w.rides k f }

/-- `UPDATE trips ... WHERE id = k`. -/
def updTrip (w : World) (k : String) (f : Trip → Trip) : World :=
  { w with trips := updF Trip.id w.trips k f }

/-- Error taxonomy of the HTTP handlers: 404, 409, 400, and an internal
failure (an unhandled exception in the handler). -/
inductive ApiError where
  | notFound (detail : String)
  | conflict (detail : String)
  | validation (detail : String)
  | internalError
deriving DecidableEq

/-! ### Surge pricing engine (`get_surge_multiplier` in
`app/services/pricing.py`) -/

/-- The demand grid cell of a pickup point: both coordinates rounded to
2 decimal places (the `f"{round(lat,2)}:{round(lng,2)}"` Redis key). -/
def demandCell (lat lng : ℚ) : ℚ × ℚ := (round2 lat, round2 lng)

/-- Is a Redis entry alive at `now`?  (`none` = no TTL.) -/
def demandLive (e : DemandEntry) (now : ℕ) : Bool :=
  match e.expiry with
  | none => true
  | some t => now < t

/-- Redis `INCR`: an expired or absent key restarts at 1 (with no TTL),
otherwise the counter is incremented.  Returns the post-increment value. -/
def redisIncrDemand (s : List DemandEntry) (c : ℚ × ℚ) (now : ℕ) :
    ℕ × List DemandEntry :=
  match findK DemandEntry.cell s c with
  | some e =>
    if demandLive e now then
      (e.count + 1, updF DemandEntry.cell s c (fun e => { e with count := e.count + 1 }))
    else
      (1, updF DemandEntry.cell s c (fun e => { e with count := 1, expiry := none }))
  | none => (1, s ++ [⟨c, 1, none⟩])

/-- Redis `EXPIRE key 300`: (re)set the key's TTL. -/
def redisExpireDemand (s : List DemandEntry) (c : ℚ × ℚ) (t : ℕ) : List DemandEntry :=
  updF DemandEntry.cell s c (fun e => { e with expiry := some t })

/-- `get_surge_multiplier` from `app/services/pricing.py`: increment the
cell's demand counter, reset its expiry to 5 minutes, and map the
post-increment count to a multiplier. -/
def get_surge_multiplier (s : List DemandEntry) (pickup_lat pickup_lng : ℚ)
    (now : ℕ) : ℚ × List DemandEntry :=
  let cell := demandCell pickup_lat pickup_lng
  let r := redisIncrDemand s cell now
  let s2 := redisExpireDemand r.2 cell (now + 300)
  (if r.1 < 5 then 1
   else if r.1 < 10 then 6/5
   else if r.1 < 20 then 3/2
   else if r.1 < 40 then 9/5
   else 2, s2)

/-- Spec-side multiplier table on the post-increment count:
`<5→1.0, <10→1.2, <20→1.5, <40→1.8, else→2.0`. -/
def specSurgeMultiplier (n : ℕ) : ℚ :=
  if n < 5 then 1
  else if n < 10 then 6/5
  else if n < 20 then 3/2
  else if n < 40 then 9/5
  else 2

/-- The live count of a demand cell before a request arrives. -/
def liveDemandCount (s : List DemandEntry) (c : ℚ × ℚ) (now : ℕ) : ℕ :=
  match findK DemandEntry.cell s c with
  | some e => if demandLive e now then e.count else 0
  | none => 0

/-! ### Trips router (`app/routers/trips.py`)

Error messages from the source carry the offending state in single
quotes; the quote characters are elided here, the state string is kept. -/

structure TripEndRequest where
  distance_km : ℚ
  duration_minutes : ℚ
deriving DecidableEq

structure TripTransitionResp where
  status : String
  trip_id : String
deriving DecidableEq

structure TripEndResp where
  status : String
  trip_id : String
  fare : ℚ
  distance_km : ℚ
  duration_minutes : ℚ
deriving DecidableEq

/-- `start_trip`: requires the trip's ride to be `accepted`; stamps the
trip start time and moves the ride to `in_progress`.  A trip whose ride
row is missing would make the handler crash on `ride["status"]`
(`internalError`, transaction rolled back). -/
def start_trip (w : World) (trip_id : String) (now : ℕ) :
    Except ApiError (TripTransitionResp × World) :=
  match findTrip w trip_id with
  | none => .error (ApiError.notFound ("Trip not found"))
  | some trip =>
    match findRide w trip.ride_id with
    | none => .error ApiError.internalError
    | some ride =>
      if ride.status ≠ "accepted" then
        .error (ApiError.conflict ("Cannot start trip in ride state " ++ ride.status))
      else
        let w1 := updTrip w trip_id (fun t => { t with started_at := some now })
        let w2 := updRide w1 trip.ride_id
          (fun r => { r with status := "in_progress", updated_at := now })
        .ok ({ status := "in_progress", trip_id := trip_id }, w2)

/-- `pause_trip`: stamps the pause time and moves the ride to `paused`.
The source checks only that the trip exists; it never reads the ride's
current status. -/
def pause_trip (w : World) (trip_id : String) (now : ℕ) :
    Except ApiError (TripTransitionResp × World) :=
  match findTrip w trip_id with
  | none => .error (ApiError.notFound ("Trip not found"))
  | some trip =>
    let w1 := updTrip w trip_id (fun t => { t with paused_at := some now })
    let w2 := updRide w1 trip.ride_id
      (fun r => { r with status := "paused", updated_at := now })
    .ok ({ status := "paused", trip_id := trip_id }, w2)

/-- `end_trip`: requires the ride to be `in_progress` or `paused`;
computes the fare with the ride's stored surge multiplier, stamps the
trip, completes the ride and frees the driver, in one transaction.
A ride row with no `driver_id` would make the driver `UPDATE` fail while
encoding `str(None)` as a UUID (`internalError`, rolled back). -/
def end_trip (w : World) (trip_id : String) (payload : TripEndRequest) (now : ℕ) :
    Except ApiError (TripEndResp × World) :=
  match findTrip w trip_id with
  | none => .error (ApiError.notFound ("Trip not found"))
  | some trip =>
    match findRide w trip.ride_id with
    | none => .error ApiError.internalError
    | some ride =>
      if ride.status ≠ "in_progress" ∧ ride.status ≠ "paused" then
        .error (ApiError.conflict ("Cannot end trip in ride state " ++ ride.status))
      else
        let fare := calculate_fare ride.tier payload.distance_km
          payload.duration_minutes ride.surge_multiplier
        let w1 := updTrip w trip_id (fun t =>
          { t with ended_at := some now, distance_km := payload.distance_km,
                   duration_minutes := payload.duration_minutes, fare := some fare })
        let w2 := updRide w1 trip.ride_id
          (fun r => { r with status := "completed", final_fare := some fare,
                             updated_at := now })
        match ride.driver_id with
        | none => .error ApiError.internalError
        | some did =>
          let w3 := updDriver w2 did (fun d => { d with status := "available" })
          .ok ({ status := "completed", trip_id := trip_id, fare := fare,
                 distance_km := payload.distance_km,
                 duration_minutes := payload.duration_minutes }, w3)

/-! ### Drivers router (`app/routers/drivers.py`) -/

structure AcceptResp where
  status : String
  trip_id : String
  ride_id : String
deriving DecidableEq

structure DriverStatusResp where
  driver_id : String
  status : String
deriving DecidableEq

/-- `accept_ride`: the ride is fetched by `id AND driver_id`; a missing
row is a 404, a ride not in `matched` is a 409; otherwise the ride is
moved to `accepted` and a trip row is inserted with its clock started,
in one transaction.  `new_trip_id` stands for the generated UUID. -/
def accept_ride (w : World) (driver_id : String) (ride_id : String) (now : ℕ)
    (new_trip_id : String) : Except ApiError (AcceptResp × World) :=
  match w.rides.find? (fun r => decide (r.id = ride_id ∧ r.driver_id = some driver_id)) with
  | none => .error (ApiError.notFound ("Ride not found or not assigned to you"))
  | some ride =>
    if ride.status ≠ "matched" then
      .error (ApiError.conflict ("Cannot accept ride in " ++ ride.status ++ " state"))
    else
      let w1 := updRide w ride_id (fun r => { r with status := "accepted", updated_at := now })
      let newTrip : Trip :=
        { id := new_trip_id, ride_id := ride_id,
          started_at := some now, paused_at := none, ended_at := none,
          distance_km := 0, duration_minutes := 0, fare := none }
      let w2 := { w1 with trips := w1.trips ++ [newTrip] }
      .ok ({ status := "accepted", trip_id := new_trip_id, ride_id := ride_id }, w2)

/-- `update_driver_status` (PATCH `/{driver_id}/status`): validates the
requested status is `available` or `offline`, then updates the row
unconditionally — the driver's current status is never read. -/
def update_driver_status (w : World) (driver_id : String) (body_status : Option String) :
    Except ApiError (DriverStatusResp × World) :=
  match body_status with
  | none => .error (ApiError.validation ("Status must be available or offline"))
  | some s =>
    if s ≠ "available" ∧ s ≠ "offline" then
      .error (ApiError.validation ("Status must be available or offline"))
    else
      match findDriver w driver_id with
      | none => .error (ApiError.notFound ("Driver not found"))
      | some _ =>
        .ok ({ driver_id := driver_id, status := s },
             updDriver w driver_id (fun d => { d with status := s }))

/-! ### Matching service (`app/services/matching.py`) -/

/-- `assign_driver_to_ride`: under the driver row lock, re-check that the
driver is still `available` (else raise), then set the driver `on_trip`
and the ride `matched` with the driver reference, in one transaction. -/
def assign_driver_to_ride (w : World) (ride_id driver_id : String) (now : ℕ) :
    Except String World :=
  match findDriver w driver_id with
  | none => .error ("Driver no longer available")
  | some d =>
    if d.status ≠ "available" then .error ("Driver no longer available")
    else
      let w1 := updDriver w driver_id (fun d => { d with status := "on_trip" })
      let w2 := updRide w1 ride_id (fun r =>
        { r with driver_id := some driver_id, status := "matched", updated_at := now })
      .ok w2

/-! ### Rides router (`app/routers/rides.py`) -/

/-- The two `find_nearest_driver` results a dispatch run can consume.
`find_nearest_driver` queries the live driver table concurrently with
other requests, so its results are modelled as snapshots (oracle values):
a returned id may no longer be `available` in the world the assignment
transaction sees. -/
structure DispatchEnv where
  find1 : Option String
  find2 : Option String
deriving DecidableEq

inductive DispatchOutcome where
  | assigned (driver_id : String)
  | noDriverCancelled
  | retryNoDriver
  | retryAssignRaised (msg : String)
deriving DecidableEq

/-- `_search_and_match`: mark the ride `searching`; if the matcher finds
nobody, mark it `cancelled` and stop.  Otherwise try the atomic
assignment; on failure retry the whole find-and-assign sequence exactly
once; a second failure leaves the ride as it is (the second raise
escapes the background task).  The `ℕ` component counts assignment
attempts. -/
def search_and_match (env : DispatchEnv) (w : World) (ride_id : String) (now : ℕ) :
    World × DispatchOutcome × ℕ :=
  let w1 := updRide w ride_id (fun r => { r with status := "searching", updated_at := now })
  match env.find1 with
  | none =>
    (updRide w1 ride_id (fun r => { r with status := "cancelled", updated_at := now }),
     .noDriverCancelled, 0)
  | some d1 =>
    match assign_driver_to_ride w1 ride_id d1 now with
    | .ok w2 => (w2, .assigned d1, 1)
    | .error _ =>
      match env.find2 with
      | none => (w1, .retryNoDriver, 1)
      | some d2 =>
        match assign_driver_to_ride w1 ride_id d2 now with
        | .ok w2 => (w2, .assigned d2, 2)
        | .error e => (w1, .retryAssignRaised e, 2)

structure RideCreate where
  rider_id : String
  pickup_lat : ℚ
  pickup_lng : ℚ
  dest_lat : ℚ
  dest_lng : ℚ
  pickup_address : Option String
  dest_address : Option String
  tier : String
  payment_method : String
  idempotency_key : Option String
deriving DecidableEq

/-- Python truthiness of an optional string (`if payload.idempotency_key:`
is false both for `None` and for the empty string). -/
def strTruthy (o : Option String) : Option String :=
  match o with
  | some s => if s = "" then none else some s
  | none => none

/-- Redis GET of the cached create-ride response for a token. -/
def liveIdemRide (w : World) (k : String) (now : ℕ) : Option Ride :=
  match findK IdemRideEntry.token w.idemRides k with
  | some e => if now < e.expiry then some e.response else none
  | none => none

/-- Redis `SETEX idem:ride:{k} 86400 response` (overwrites the key). -/
def setIdemRide (w : World) (k : String) (r : Ride) (exp : ℕ) : World :=
  { w with idemRides :=
      w.idemRides.filter (fun e => decide (e.token ≠ k)) ++ [⟨k, r, exp⟩] }

/-- `create_ride`: serve a live cached response verbatim when the token
is known; otherwise compute surge and estimate, insert the ride with
`ON CONFLICT (idempotency_key) DO UPDATE` (a duplicate token yields the
existing row, no second row), cache the response under the token for
24 hours, and schedule background matching.  The `Bool` records whether
the background dispatch task was scheduled. -/
def create_ride (dist : ℚ → ℚ → ℚ → ℚ → ℚ) (w : World) (p : RideCreate)
    (now : ℕ) (new_id : String) : Ride × World × Bool :=
  let cached := match strTruthy p.idempotency_key with
    | some k => liveIdemRide w k now
    | none => none
  match cached with
  | some r => (r, w, false)
  | none =>
    let sd := get_surge_multiplier w.demand p.pickup_lat p.pickup_lng now
    let w1 := { w with demand := sd.2 }
    let est := estimate_fare dist p.tier p.pickup_lat p.pickup_lng
      p.dest_lat p.dest_lng sd.1
    let conflictRow := match p.idempotency_key with
      | some k => w1.rides.find? (fun r => decide (r.idempotency_key = some k))
      | none => none
    let rw : Ride × World := match conflictRow with
      | some r => (r, w1)
      | none =>
        let r : Ride :=
          { id := new_id, rider_id := p.rider_id, driver_id := none,
            pickup_lat := p.pickup_lat, pickup_lng := p.pickup_lng,
            dest_lat := p.dest_lat, dest_lng := p.dest_lng,
            pickup_address := p.pickup_address, dest_address := p.dest_address,
            tier := p.tier, payment_method := p.payment_method, status := "requested",
            surge_multiplier := sd.1, estimated_fare := some est, final_fare := none,
            idempotency_key := p.idempotency_key, created_at := now, updated_at := now }
        (r, { w1 with rides := w1.rides ++ [r] })
    let w2 := match strTruthy p.idempotency_key with
      | some k => setIdemRide rw.2 k rw.1 (now + 86400)
      | none => rw.2
    (rw.1, w2, true)

/-! ### Payments router (`app/routers/payments.py`) -/

structure PaymentCreate where
  ride_id : String
  idempotency_key : Option String
deriving DecidableEq

/-- Redis GET of the cached create-payment response for a token. -/
def liveIdemPayment (w : World) (k : String) (now : ℕ) : Option Payment :=
  match findK IdemPaymentEntry.token w.idemPayments k with
  | some e => if now < e.expiry then some e.response else none
  | none => none

/-- Redis `SETEX idem:pay:{k} 86400 response` (overwrites the key). -/
def setIdemPayment (w : World) (k : String) (q : Payment) (exp : ℕ) : World :=
  { w with idemPayments :=
      w.idemPayments.filter (fun e => decide (e.token ≠ k)) ++ [⟨k, q, exp⟩] }

/-- Python truthiness of an optional float: `x or y` keeps `x` only when
it is neither `None` nor `0`. -/
def pyOrQ (o : Option ℚ) : Option ℚ :=
  match o with
  | some x => if x = 0 then none else some x
  | none => none

/-- `float(a or b or 0)` on two optional floats. -/
def pyFloatOrZero (a b : Option ℚ) : ℚ :=
  match pyOrQ a with
  | some x => x
  | none =>
    match pyOrQ b with
    | some y => y
    | none => 0

/-- The `redis.get(f"idem:pay:{key}")` check guarding `create_payment`
(skipped for an absent or empty token). -/
def cachedPaymentResp (w : World) (p : PaymentCreate) (now : ℕ) : Option Payment :=
  match strTruthy p.idempotency_key with
  | some k => liveIdemPayment w k now
  | none => none

/-- The row the payment `INSERT ... ON CONFLICT (idempotency_key)` would
conflict with (`none` when the token is absent or unused). -/
def paymentConflictRow (w : World) (p : PaymentCreate) : Option Payment :=
  match p.idempotency_key with
  | some k => w.payments.find? (fun q => decide (q.idempotency_key = some k))
  | none => none

/-- `create_payment`: serve a live cached response when the token is
known; otherwise the ride must exist (404) and be `completed` (409);
the amount is `float(final_fare or estimated_fare or 0)`; the payment
row is inserted with the table's `DEFAULT 'pending'` status and
`ON CONFLICT (idempotency_key) DO UPDATE` duplicate handling; the
response is cached for 24 hours and settlement is scheduled (`Bool`). -/
def create_payment (w : World) (p : PaymentCreate) (now : ℕ) (new_id : String) :
    Except ApiError (Payment × World × Bool) :=
  match cachedPaymentResp w p now with
  | some pay => .ok (pay, w, false)
  | none =>
    match findRide w p.ride_id with
    | none => .error (ApiError.notFound ("Ride not found"))
    | some ride =>
      if ride.status ≠ "completed" then
        .error (ApiError.conflict ("Ride must be completed before payment"))
      else
        let amount := pyFloatOrZero ride.final_fare ride.estimated_fare
        let pw : Payment × World := match paymentConflictRow w p with
          | some q => (q, w)
          | none =>
            let q : Payment :=
              { id := new_id, ride_id := p.ride_id,
                rider_id := ride.rider_id, amount := amount,
                method := ride.payment_method, status := "pending",
                psp_ref := none, idempotency_key := p.idempotency_key }
            (q, { w with payments := w.payments ++ [q] })
        let w2 := match strTruthy p.idempotency_key with
          | some k => setIdemPayment pw.2 k pw.1 (now + 86400)
          | none => pw.2
        .ok (pw.1, w2, true)

/-! ### Great-circle geometry over `ℝ`

`haversine_km` (in `app/services/pricing.py`) and the SQL distance
expression inside `find_nearest_driver` (in `app/services/matching.py`)
are transcendental float computations; their exact real-number semantics
is given here. -/

noncomputable section Geometry

/-- `math.radians`. -/
def radians (x : ℝ) : ℝ := x * Real.pi / 180

/-- `math.atan2 y x` (two-argument arctangent, C semantics). -/
def atan2 (y x : ℝ) : ℝ :=
  if 0 < x then Real.arctan (y / x)
  else if x < 0 then
    if 0 ≤ y then Real.arctan (y / x) + Real.pi else Real.arctan (y / x) - Real.pi
  else
    if 0 < y then Real.pi / 2
    else if y < 0 then -(Real.pi / 2)
    else 0

/-- `haversine_km` from `app/services/pricing.py`. -/
def haversine_km (lat1 lng1 lat2 lng2 : ℝ) : ℝ :=
  let R : ℝ := 6371
  let phi1 := radians lat1
  let phi2 := radians lat2
  let dphi := radians (lat2 - lat1)
  let dlambda := radians (lng2 - lng1)
  let a := Real.sin (dphi / 2) ^ 2
    + Real.cos phi1 * Real.cos phi2 * Real.sin (dlambda / 2) ^ 2
  R * 2 * atan2 (Real.sqrt a) (Real.sqrt (1 - a))

/-- The great-circle distance computed by the SQL query inside
`find_nearest_driver` (`app/services/matching.py`):
`6371 * acos(cos(radians($1)) * cos(radians(latitude)) *
cos(radians(longitude) - radians($2)) + sin(radians($1)) *
sin(radians(latitude)))`, with `($1,$2)` the pickup point and
`(latitude, longitude)` the driver position. -/
def matcher_distance_km (pickup_lat pickup_lng lat lng : ℝ) : ℝ :=
  6371 * Real.arccos
    (Real.cos (radians pickup_lat) * Real.cos (radians lat)
        * Real.cos (radians lng - radians pickup_lng)
      + Real.sin (radians pickup_lat) * Real.sin (radians lat))

end Geometry

/-- The availability re-check `not driver or driver["status"] != "available"`
that `assign_driver_to_ride` performs at assignment time, as a predicate on
the world the assignment transaction sees. -/
def driverUnavailable (w : World) (d : String) : Bool :=
  match findDriver w d with
  | none => true
  | some drv => decide (drv.status ≠ "available")

/-! ### Concrete fixtures used by the witness theorems -/

def d1c : Driver :=
  { id := "d1", name := "Dan", phone := "9999999999", tier := "standard",
    status := "on_trip", latitude := some 12, longitude := some 77 }

def r1c : Ride :=
  { id := "r1", rider_id := "u1", driver_id := some "d1",
    pickup_lat := 12, pickup_lng := 77, dest_lat := 13, dest_lng := 77,
    pickup_address := none, dest_address := none, tier := "standard",
    payment_method := "card", status := "in_progress", surge_multiplier := 1,
    estimated_fare := some 100, final_fare := none, idempotency_key := none,
    created_at := 10, updated_at := 20 }

def t1c : Trip :=
  { id := "t1", ride_id := "r1", started_at := some 20, paused_at := none,
    ended_at := none, distance_km := 0, duration_minutes := 0, fare := none }

def w1c : World :=
  { drivers := [d1c], rides := [r1c], trips := [t1c], payments := [],
    demand := [], idemRides := [], idemPayments := [] }

def r3c : Ride := { r1c with id := "r3", status := "matched" }

def w3c : World :=
  { drivers := [d1c], rides := [r3c], trips := [], payments := [],
    demand := [], idemRides := [], idemPayments := [] }

def r4c : Ride := { r1c with id := "r4", driver_id := none, status := "requested" }

def w4c : World :=
  { drivers := [d1c], rides := [r4c], trips := [], payments := [],
    demand := [], idemRides := [], idemPayments := [] }

def p5c : RideCreate :=
  { rider_id := "u1", pickup_lat := 12, pickup_lng := 77,
    dest_lat := 13, dest_lng := 77, pickup_address := none,
    dest_address := none, tier := "standard", payment_method := "card",
    idempotency_key := some "tok1" }

def w5c : World :=
  { drivers := [], rides := [], trips := [], payments := [],
    demand := [], idemRides := [], idemPayments := [] }

def r8c : Ride :=
  { r1c with id := "r8", status := "completed", final_fare := some 150 }

def t8c : Trip :=
  { id := "t8", ride_id := "r8", started_at := some 20, paused_at := none,
    ended_at := some 30, distance_km := 5, duration_minutes := 15,
    fare := some 150 }

def w8c : World :=
  { drivers := [], rides := [r8c], trips := [t8c], payments := [],
    demand := [], idemRides := [], idemPayments := [] }

def w9c : World :=
  { drivers := [d1c], rides := [], trips := [], payments := [],
    demand := [], idemRides := [], idemPayments := [] }

def w10c : World :=
  { drivers := [], rides := [r8c], trips := [], payments := [],
    demand := [], idemRides := [], idemPayments := [] }

def p10c : PaymentCreate := { ride_id := "r8", idempotency_key := some "ptok" }

/-! ### Lemmas about keyed lists -/

section KeyedListLemmas

variable {α κ : Type} [DecidableEq κ]

theorem findK_updF_self (key : α → κ) (l : List α) (k : κ) (f : α → α)
    (hf : ∀ x, key (f x) = key x) :
    findK key (updF key l k f) k = (findK key l k).map f := by
  unfold findK updF
  rw [List.find?_map]
  have h1 : ((fun x => decide (key x = k)) ∘ (fun x => if key x = k then f x else x))
      = fun x => decide (key x = k) := by
    funext x
    by_cases h : key x = k <;> simp [h, hf]
  rw [h1]
  cases h : l.find? (fun x => decide (key x = k)) with
  | none => rfl
  | some r =>
    have hr := List.find?_some h
    simp only [decide_eq_true_eq] at hr
    simp [hr]

theorem findK_updF_ne (key : α → κ) (l : List α) (k k' : κ) (f : α → α)
    (hf : ∀ x, key (f x) = key x) (hkk : k' ≠ k) :
    findK key (updF key l k f) k' = findK key l k' := by
  unfold findK updF
  rw [List.find?_map]
  have h1 : ((fun x => decide (key x = k')) ∘ (fun x => if key x = k then f x else x))
      = fun x => decide (key x = k') := by
    funext x
    by_cases h : key x = k <;> simp [h, hf]
  rw [h1]
  cases h : l.find? (fun x => decide (key x = k')) with
  | none => rfl
  | some r =>
    have hr := List.find?_some h
    simp only [decide_eq_true_eq] at hr
    have : ¬ key r = k := by
      rw [hr]; exact hkk
    simp [this]

theorem findK_eq_none_iff (key : α → κ) (l : List α) (k : κ) :
    findK key l k = none ↔ ∀ x ∈ l, key x ≠ k := by
  unfold findK
  rw [List.find?_eq_none]
  simp

theorem findK_append (key : α → κ) (l₁ l₂ : List α) (k : κ)
    (h : findK key l₁ k = none) :
    findK key (l₁ ++ l₂) k = findK key l₂ k := by
  unfold findK at *
  induction l₁ with
  | nil => simp
  | cons a t ih =>
    by_cases ha : key a = k
    · simp [List.find?, ha] at h
    · simp only [List.cons_append, List.find?, decide_eq_true_eq, ha, decide_False] at h ⊢
      exact ih h

theorem updF_append (key : α → κ) (l₁ l₂ : List α) (k : κ) (f : α → α) :
    updF key (l₁ ++ l₂) k f = updF key l₁ k f ++ updF key l₂ k f := by
  unfold updF
  exact List.map_append _ _ _

theorem findK_of_mem_nodup (key : α → κ) (l : List α) (k : κ) (x : α)
    (hnd : (l.map key).Nodup) (hx : x ∈ l) (hk : key x = k) :
    findK key l k = some x := by
  unfold findK
  induction l with
  | nil => cases hx
  | cons a t ih =>
    simp only [List.map_cons, List.nodup_cons] at hnd
    rcases List.mem_cons.mp hx with rfl | hxt
    · simp [List.find?, hk]
    · have hak : ¬ key a = k := by
        intro h
        exact hnd.1 (h ▸ hk ▸ List.mem_map_of_mem key hxt)
      simp only [List.find?, hak, decide_False]
      exact ih hnd.2 hxt

theorem findK_eq_some_key (key : α → κ) (l : List α) (k : κ) (x : α)
    (h : findK key l k = some x) : key x = k ∧ x ∈ l := by
  unfold findK at h
  refine ⟨?_, List.mem_of_find?_eq_some h⟩
  have := List.find?_some h
  simpa using this

theorem findK_filter_ne_append (key : α → κ) (l : List α) (k : κ) (e0 : α)
    (hk : key e0 = k) :
    findK key (l.filter (fun x => decide (key x ≠ k)) ++ [e0]) k = some e0 := by
  have hnone : findK key (l.filter (fun x => decide (key x ≠ k))) k = none := by
    rw [findK_eq_none_iff]
    intro x hx
    have := List.of_mem_filter hx
    simpa using this
  rw [findK_append _ _ _ _ hnone]
  simp [findK, List.find?, hk]

/-- With unique keys, a `find?` over `key = k AND p` succeeds on the row
`findK` locates whenever that row satisfies `p`. -/
theorem find?_key_and_some (key : α → κ) (l : List α) (k : κ) (r : α) (p : α → Bool)
    (hnd : (l.map key).Nodup) (h : findK key l k = some r) (hp : p r = true) :
    l.find? (fun x => decide (key x = k) && p x) = some r := by
  induction l with
  | nil => simp [findK] at h
  | cons a t ih =>
    simp only [List.map_cons, List.nodup_cons] at hnd
    by_cases ha : key a = k
    · have h1 : findK key (a :: t) k = some a := by
        unfold findK
        rw [List.find?_cons_of_pos _ (by simpa using ha)]
      have har : a = r := by
        rw [h1] at h
        exact Option.some.inj h
      subst har
      rw [List.find?_cons_of_pos _ (by simp [ha, hp])]
    · have h2 : findK key (a :: t) k = findK key t k := by
        unfold findK
        rw [List.find?_cons_of_neg _ (by simpa using ha)]
      rw [h2] at h
      rw [List.find?_cons_of_neg _ (by simp [ha])]
      exact ih hnd.2 h

/-- With unique keys, a `find?` over `key = k AND p` fails when the row
`findK` locates does not satisfy `p`. -/
theorem find?_key_and_none (key : α → κ) (l : List α) (k : κ) (r : α) (p : α → Bool)
    (hnd : (l.map key).Nodup) (h : findK key l k = some r) (hp : p r = false) :
    l.find? (fun x => decide (key x = k) && p x) = none := by
  induction l with
  | nil => simp [findK] at h
  | cons a t ih =>
    simp only [List.map_cons, List.nodup_cons] at hnd
    by_cases ha : key a = k
    · have h1 : findK key (a :: t) k = some a := by
        unfold findK
        rw [List.find?_cons_of_pos _ (by simpa using ha)]
      have har : a = r := by
        rw [h1] at h
        exact Option.some.inj h
      subst har
      rw [List.find?_cons_of_neg _ (by simp [hp])]
      rw [List.find?_eq_none]
      intro x hx
      have hxk : key x ≠ k := by
        intro hcontra
        have hmem : key x ∈ List.map key t := List.mem_map_of_mem key hx
        rw [hcontra, ← ha] at hmem
        exact hnd.1 hmem
      simp [hxk]
    · have h2 : findK key (a :: t) k = findK key t k := by
        unfold findK
        rw [List.find?_cons_of_neg _ (by simpa using ha)]
      rw [h2] at h
      rw [List.find?_cons_of_neg _ (by simp [ha])]
      exact ih hnd.2 h

/-- A `find?` over `key = k AND p` fails when no row has key `k`. -/
theorem find?_key_and_absent (key : α → κ) (l : List α) (k : κ) (p : α → Bool)
    (h : findK key l k = none) :
    l.find? (fun x => decide (key x = k) && p x) = none := by
  rw [findK_eq_none_iff] at h
  rw [List.find?_eq_none]
  intro x hx
  simp [h x hx]

end KeyedListLemmas

/-! ### Table lookup and update lemmas -/

theorem findRide_updRide (w : World) (k : String) (f : Ride → Ride)
    (hf : ∀ r, (f r).id = r.id) :
    findRide (updRide w k f) k = (findRide w k).map f :=
  findK_updF_self Ride.id w.rides k f hf

theorem findTrip_updTrip (w : World) (k : String) (f : Trip → Trip)
    (hf : ∀ t, (f t).id = t.id) :
    findTrip (updTrip w k f) k = (findTrip w k).map f :=
  findK_updF_self Trip.id w.trips k f hf

theorem findDriver_updDriver (w : World) (k : String) (f : Driver → Driver)
    (hf : ∀ d, (f d).id = d.id) :
    findDriver (updDriver w k f) k = (findDriver w k).map f :=
  findK_updF_self Driver.id w.drivers k f hf

theorem findRide_updTrip (w : World) (k k2 : String) (f : Trip → Trip) :
    findRide (updTrip w k f) k2 = findRide w k2 := rfl

theorem findRide_updDriver (w : World) (k k2 : String) (f : Driver → Driver) :
    findRide (updDriver w k f) k2 = findRide w k2 := rfl

theorem findTrip_updRide (w : World) (k k2 : String) (f : Ride → Ride) :
    findTrip (updRide w k f) k2 = findTrip w k2 := rfl

theorem findTrip_updDriver (w : World) (k k2 : String) (f : Driver → Driver) :
    findTrip (updDriver w k f) k2 = findTrip w k2 := rfl

theorem findDriver_updRide (w : World) (k k2 : String) (f : Ride → Ride) :
    findDriver (updRide w k f) k2 = findDriver w k2 := rfl

theorem findDriver_updTrip (w : World) (k k2 : String) (f : Trip → Trip) :
    findDriver (updTrip w k f) k2 = findDriver w k2 := rfl


/-- The law-of-cosines argument rewritten through the haversine term. -/
theorem cos_arg_as_haversine (p1 p2 dl : ℝ) :
    Real.cos p1 * Real.cos p2 * Real.cos dl + Real.sin p1 * Real.sin p2
      = 1 - 2 * (Real.sin ((p2 - p1) / 2) ^ 2
          + Real.cos p1 * Real.cos p2 * Real.sin (dl / 2) ^ 2) := by
  have h1 := Real.sin_sq_eq_half_sub ((p2 - p1) / 2)
  have h2 := Real.sin_sq_eq_half_sub (dl / 2)
  rw [show 2 * ((p2 - p1) / 2) = p2 - p1 by ring] at h1
  rw [show 2 * (dl / 2) = dl by ring] at h2
  rw [h1, h2, Real.cos_sub]
  ring

/-- The law-of-cosines argument is a dot product of unit vectors, hence
has square at most 1. -/
theorem cos_arg_sq_le_one (p1 p2 dl : ℝ) :
    (Real.cos p1 * Real.cos p2 * Real.cos dl + Real.sin p1 * Real.sin p2) ^ 2 ≤ 1 := by
  nlinarith [sq_nonneg (Real.cos p1 * Real.sin p2
      - Real.sin p1 * Real.cos p2 * Real.cos dl),
    Real.sin_sq_add_cos_sq p1, Real.sin_sq_add_cos_sq p2,
    Real.cos_sq_le_one dl,
    mul_nonneg (sq_nonneg (Real.cos p2))
      (sub_nonneg.2 (Real.cos_sq_le_one dl))]

/-- For `a ∈ [0,1]`, `atan2 √a √(1-a)` is `arcsin √a`. -/
theorem atan2_sqrt_eq_arcsin (a : ℝ) (ha0 : 0 ≤ a) (ha1 : a ≤ 1) :
    atan2 (Real.sqrt a) (Real.sqrt (1 - a)) = Real.arcsin (Real.sqrt a) := by
  rcases lt_or_eq_of_le ha1 with hlt | heq
  · have hx : 0 < Real.sqrt (1 - a) := Real.sqrt_pos.2 (by linarith)
    have hy1 : Real.sqrt a < 1 := by
      have := Real.sqrt_lt_sqrt ha0 hlt
      simpa using this
    have hmem : Real.sqrt a ∈ Set.Ioo (-1 : ℝ) 1 :=
      ⟨lt_of_lt_of_le (by norm_num) (Real.sqrt_nonneg a), hy1⟩
    have harc := Real.arcsin_eq_arctan hmem
    have hsq : Real.sqrt a ^ 2 = a := Real.sq_sqrt ha0
    rw [atan2, if_pos hx, harc, hsq]
  · subst heq
    have h0 : Real.sqrt (1 - 1) = 0 := by norm_num
    have h1 : Real.sqrt (1 : ℝ) = 1 := Real.sqrt_one
    rw [atan2, h0, h1]
    norm_num [Real.arcsin_one]

/-- For `a ∈ [0,1]`, `arccos (1 - 2a) = 2 * arcsin √a`. -/
theorem arccos_one_sub_two_mul (a : ℝ) (ha0 : 0 ≤ a) (ha1 : a ≤ 1) :
    Real.arccos (1 - 2 * a) = 2 * Real.arcsin (Real.sqrt a) := by
  set y := Real.arcsin (Real.sqrt a) with hy
  have hy0 : 0 ≤ y := Real.arcsin_nonneg.2 (Real.sqrt_nonneg a)
  have hy2 : y ≤ Real.pi / 2 := Real.arcsin_le_pi_div_two _
  have hsin : Real.sin y = Real.sqrt a :=
    Real.sin_arcsin (le_trans (by norm_num) (Real.sqrt_nonneg a))
      (Real.sqrt_le_one.2 ha1)
  have hcos : Real.cos (2 * y) = 1 - 2 * a := by
    rw [Real.cos_two_mul]
    have hsc := Real.sin_sq_add_cos_sq y
    have hsq : Real.sin y ^ 2 = a := by rw [hsin]; exact Real.sq_sqrt ha0
    nlinarith
  calc Real.arccos (1 - 2 * a) = Real.arccos (Real.cos (2 * y)) := by rw [hcos]
    _ = 2 * y := Real.arccos_cos (by linarith) (by linarith [Real.pi_pos])

/-- C6.  The great-circle distance the matcher's SQL query evaluates
equals `haversine_km` of the same two points, for every pair of
coordinates: the spherical law of cosines and the haversine formula
agree exactly over the reals (on the shared mean Earth radius 6371). -/
theorem matcher_distance_eq_haversine (lat1 lng1 lat2 lng2 : ℝ) :
    matcher_distance_km lat1 lng1 lat2 lng2 = haversine_km lat1 lng1 lat2 lng2 := by
  unfold matcher_distance_km haversine_km radians
  dsimp only
  rw [show (lat2 - lat1) * Real.pi / 180
      = lat2 * Real.pi / 180 - lat1 * Real.pi / 180 by ring,
    show (lng2 - lng1) * Real.pi / 180
      = lng2 * Real.pi / 180 - lng1 * Real.pi / 180 by ring]
  set p1 := lat1 * Real.pi / 180 with hp1
  set p2 := lat2 * Real.pi / 180 with hp2
  set dl := lng2 * Real.pi / 180 - lng1 * Real.pi / 180 with hdl
  set a := Real.sin ((p2 - p1) / 2) ^ 2
    + Real.cos p1 * Real.cos p2 * Real.sin (dl / 2) ^ 2 with ha
  have hP : Real.cos p1 * Real.cos p2 * Real.cos dl + Real.sin p1 * Real.sin p2
      = 1 - 2 * a := by
    rw [ha]; exact cos_arg_as_haversine p1 p2 dl
  have hsq := cos_arg_sq_le_one p1 p2 dl
  rw [hP] at hsq
  have ha0 : 0 ≤ a := by nlinarith [sq_nonneg a]
  have ha1 : a ≤ 1 := by nlinarith [sq_nonneg (1 - a)]
  rw [hP, arccos_one_sub_two_mul a ha0 ha1, atan2_sqrt_eq_arcsin a ha0 ha1]
  ring

/-! ### Claim theorems -/

/-- C2.  For every tier string, distance, duration and surge,
`calculate_fare` returns `round((base[tier] + perKm[tier]*distance +
perMin[tier]*duration) * surge, 2)` with the spec's constant tables
(base {standard:30, premium:60, xl:80}; perKm {12,20,18};
perMin {1.5,2.5,2.0}); an unrecognized tier uses the standard constants;
and `calculate_fare("standard",0,0,1.0) = 30.0`,
`calculate_fare("xl",5,10,1.0) = 190.0`. -/
theorem calculate_fare_spec (tier : String) (d t s : ℚ) :
    calculate_fare tier d t s
        = round2 ((specBase tier + specPerKm tier * d + specPerMin tier * t) * s)
    ∧ (tier ≠ "standard" → tier ≠ "premium" → tier ≠ "xl" →
        calculate_fare tier d t s = calculate_fare "standard" d t s)
    ∧ calculate_fare "standard" 0 0 1 = 30
    ∧ calculate_fare "xl" 5 10 1 = 190 := by
  refine ⟨?_, ?_, ?_, ?_⟩
  · by_cases h1 : tier = "standard"
    · subst h1
      simp +decide [calculate_fare, BASE_FARE_get, RATE_PER_KM_get,
        RATE_PER_MIN_get, specBase, specPerKm, specPerMin]
    · by_cases h2 : tier = "premium"
      · subst h2
        simp +decide [calculate_fare, BASE_FARE_get, RATE_PER_KM_get,
          RATE_PER_MIN_get, specBase, specPerKm, specPerMin]
      · by_cases h3 : tier = "xl"
        · subst h3
          simp +decide [calculate_fare, BASE_FARE_get, RATE_PER_KM_get,
            RATE_PER_MIN_get, specBase, specPerKm, specPerMin]
        · simp [calculate_fare, BASE_FARE_get, RATE_PER_KM_get,
            RATE_PER_MIN_get, specBase, specPerKm, specPerMin, h1, h2, h3]
  · intro h1 h2 h3
    simp [calculate_fare, BASE_FARE_get, RATE_PER_KM_get, RATE_PER_MIN_get,
      h1, h2, h3]
  · simp +decide only [calculate_fare, BASE_FARE_get, RATE_PER_KM_get,
      RATE_PER_MIN_get]
    norm_num [round2, roundHalfEven]
  · simp +decide only [calculate_fare, BASE_FARE_get, RATE_PER_KM_get,
      RATE_PER_MIN_get]
    norm_num [round2, roundHalfEven]

/-- Witness for C2: the fallback clause applied at the concrete
unrecognized tier `suv`. -/
theorem calculate_fare_spec_witness :
    ("suv" : String) ≠ "standard" ∧ ("suv" : String) ≠ "premium"
    ∧ ("suv" : String) ≠ "xl"
    ∧ calculate_fare "suv" 2 3 1 = calculate_fare "standard" 2 3 1 :=
  ⟨by decide, by decide, by decide,
   (calculate_fare_spec "suv" 2 3 1).2.1 (by decide) (by decide) (by decide)⟩

/-- C7.  Every ride-creation request increments the demand counter of
the pickup cell (coordinates rounded to 2 decimals), resets the
counter's expiry to 5 minutes (300 s from now), and returns the
multiplier of the post-increment count per the threshold table. -/
theorem get_surge_multiplier_spec (s : List DemandEntry) (plat plng : ℚ) (now : ℕ) :
    (get_surge_multiplier s plat plng now).1
        = specSurgeMultiplier (liveDemandCount s (demandCell plat plng) now + 1)
    ∧ ∃ e, findK DemandEntry.cell (get_surge_multiplier s plat plng now).2
            (demandCell plat plng) = some e
        ∧ e.count = liveDemandCount s (demandCell plat plng) now + 1
        ∧ e.expiry = some (now + 300) := by
  unfold get_surge_multiplier redisIncrDemand redisExpireDemand liveDemandCount
  cases hfind : findK DemandEntry.cell s (demandCell plat plng) with
  | none =>
    simp only [hfind]
    constructor
    · norm_num [specSurgeMultiplier]
    · refine ⟨⟨demandCell plat plng, 1, some (now + 300)⟩, ?_, rfl, rfl⟩
      rw [updF_append]
      have hn := findK_updF_self DemandEntry.cell s (demandCell plat plng)
        (fun e => { e with expiry := some (now + 300) }) (fun _ => rfl)
      rw [hfind] at hn
      simp only [Option.map_none'] at hn
      rw [findK_append _ _ _ _ hn]
      simp [updF, findK, List.find?]
  | some e0 =>
    cases hlive : demandLive e0 now with
    | true =>
      simp only [hfind, hlive, if_true]
      constructor
      · rfl
      · refine ⟨{ e0 with count := e0.count + 1, expiry := some (now + 300) }, ?_, rfl, rfl⟩
        have h1 := findK_updF_self DemandEntry.cell s (demandCell plat plng)
          (fun e => { e with count := e.count + 1 }) (fun _ => rfl)
        have h2 := findK_updF_self DemandEntry.cell
          (updF DemandEntry.cell s (demandCell plat plng)
            (fun e => { e with count := e.count + 1 }))
          (demandCell plat plng)
          (fun e => { e with expiry := some (now + 300) }) (fun _ => rfl)
        rw [h1, hfind] at h2
        simpa using h2
    | false =>
      simp only [hfind, hlive, if_false, Bool.false_eq_true]
      constructor
      · rfl
      · refine ⟨{ e0 with count := 1, expiry := some (now + 300) }, ?_, rfl, rfl⟩
        have h1 := findK_updF_self DemandEntry.cell s (demandCell plat plng)
          (fun e => { e with count := 1, expiry := none }) (fun _ => rfl)
        have h2 := findK_updF_self DemandEntry.cell
          (updF DemandEntry.cell s (demandCell plat plng)
            (fun e => { e with count := 1, expiry := none }))
          (demandCell plat plng)
          (fun e => { e with expiry := some (now + 300) }) (fun _ => rfl)
        rw [h1, hfind] at h2
        simpa using h2


/-- C1.  For a trip whose ride is `in_progress` or `paused`, `end_trip`
with nonnegative distance and duration stamps the trip's end time,
distance, duration and fare, sets the ride's `final_fare` and status
`completed`, and sets the assigned driver `available`, the fare being
`calculate_fare(ride.tier, d, t, ride.surge_multiplier)` with the surge
multiplier stored on the ride; for a ride in any other state it fails
with a Conflict naming the actual state and no record changes. -/
theorem end_trip_spec (w : World) (trip_id : String) (payload : TripEndRequest)
    (now : ℕ) (trip : Trip) (ride : Ride)
    (ht : findTrip w trip_id = some trip)
    (hr : findRide w trip.ride_id = some ride)
    (hd0 : 0 ≤ payload.distance_km) (ht0 : 0 ≤ payload.duration_minutes) :
    ((ride.status = "in_progress" ∨ ride.status = "paused") →
      ∀ did drv, ride.driver_id = some did → findDriver w did = some drv →
      ∃ w3, end_trip w trip_id payload now
          = .ok ({ status := "completed", trip_id := trip_id,
                   fare := calculate_fare ride.tier payload.distance_km
                     payload.duration_minutes ride.surge_multiplier,
                   distance_km := payload.distance_km,
                   duration_minutes := payload.duration_minutes }, w3)
        ∧ findTrip w3 trip_id = some { trip with
            ended_at := some now,
            distance_km := payload.distance_km,
            duration_minutes := payload.duration_minutes,
            fare := some (calculate_fare ride.tier payload.distance_km
              payload.duration_minutes ride.surge_multiplier) }
        ∧ findRide w3 trip.ride_id = some { ride with
            status := "completed",
            final_fare := some (calculate_fare ride.tier payload.distance_km
              payload.duration_minutes ride.surge_multiplier),
            updated_at := now }
        ∧ findDriver w3 did = some { drv with status := "available" })
    ∧ (ride.status ≠ "in_progress" → ride.status ≠ "paused" →
        end_trip w trip_id payload now
          = .error (ApiError.conflict ("Cannot end trip in ride state "
              ++ ride.status))) := by
  constructor
  · intro hst did drv hdid hdrv
    have hcond : ¬(ride.status ≠ "in_progress" ∧ ride.status ≠ "paused") := by
      rcases hst with h | h <;> simp [h]
    refine ⟨updDriver (updRide (updTrip w trip_id (fun t =>
        { t with ended_at := some now, distance_km := payload.distance_km,
                 duration_minutes := payload.duration_minutes,
                 fare := some (calculate_fare ride.tier payload.distance_km
                   payload.duration_minutes ride.surge_multiplier) }))
        trip.ride_id (fun r =>
        { r with status := "completed",
                 final_fare := some (calculate_fare ride.tier payload.distance_km
                   payload.duration_minutes ride.surge_multiplier),
                 updated_at := now }))
        did (fun d => { d with status := "available" }), ?_, ?_, ?_, ?_⟩
    · unfold end_trip
      simp only [ht, hr]
      rw [if_neg hcond]
      simp only [hdid]
    · simp only [findTrip, updDriver, updRide, updTrip]
      refine Eq.trans (findK_updF_self _ _ _ _ ?_) ?_
      · intro x; rfl
      · have ht2 : findK Trip.id w.trips trip_id = some trip := ht
        rw [ht2]; rfl
    · simp only [findRide, updDriver, updRide, updTrip]
      refine Eq.trans (findK_updF_self _ _ _ _ ?_) ?_
      · intro x; rfl
      · have hr2 : findK Ride.id w.rides trip.ride_id = some ride := hr
        rw [hr2]; rfl
    · simp only [findDriver, updDriver, updRide, updTrip]
      refine Eq.trans (findK_updF_self _ _ _ _ ?_) ?_
      · intro x; rfl
      · have hd2 : findK Driver.id w.drivers did = some drv := hdrv
        rw [hd2]; rfl
  · intro h1 h2
    unfold end_trip
    simp only [ht, hr]
    rw [if_pos ⟨h1, h2⟩]

/-- Witness for C1: ending the concrete in-progress trip `t1` with
distance 5 and duration 15 completes the ride with fare
`calculate_fare "standard" 5 15 1` and frees driver `d1`. -/
theorem end_trip_spec_witness :
    ∃ w3, end_trip w1c "t1" ⟨5, 15⟩ 100
        = .ok ({ status := "completed", trip_id := "t1",
                 fare := calculate_fare r1c.tier 5 15 r1c.surge_multiplier,
                 distance_km := 5, duration_minutes := 15 }, w3)
      ∧ findTrip w3 "t1" = some { t1c with
          ended_at := some 100, distance_km := 5, duration_minutes := 15,
          fare := some (calculate_fare r1c.tier 5 15 r1c.surge_multiplier) }
      ∧ findRide w3 t1c.ride_id = some { r1c with
          status := "completed",
          final_fare := some (calculate_fare r1c.tier 5 15 r1c.surge_multiplier),
          updated_at := 100 }
      ∧ findDriver w3 "d1" = some { d1c with status := "available" } :=
  (end_trip_spec w1c "t1" ⟨5, 15⟩ 100 t1c r1c (by rfl) (by rfl)
      (by decide) (by decide)).1
    (Or.inl (by rfl)) "d1" d1c (by rfl) (by rfl)


/-- C3.  `accept_ride` succeeds only when the ride exists, its assigned
driver equals the accepting driver, and its status is `matched`; then it
atomically moves the ride to `accepted` and inserts the Trip row with
its clock started.  Any other ride state or driver mismatch (or a
missing ride) fails with NotFound/Conflict and changes nothing. -/
theorem accept_ride_spec (w : World) (driver_id ride_id : String) (now : ℕ)
    (tid : String) (hnd : (w.rides.map Ride.id).Nodup) :
    (findRide w ride_id = none →
      accept_ride w driver_id ride_id now tid
        = .error (ApiError.notFound ("Ride not found or not assigned to you")))
    ∧ ∀ ride, findRide w ride_id = some ride →
        ((ride.driver_id ≠ some driver_id →
            accept_ride w driver_id ride_id now tid
              = .error (ApiError.notFound ("Ride not found or not assigned to you")))
        ∧ (ride.driver_id = some driver_id → ride.status ≠ "matched" →
            accept_ride w driver_id ride_id now tid
              = .error (ApiError.conflict
                  ("Cannot accept ride in " ++ ride.status ++ " state")))
        ∧ (ride.driver_id = some driver_id → ride.status = "matched" →
            ∃ w2, accept_ride w driver_id ride_id now tid
                = .ok ({ status := "accepted", trip_id := tid,
                         ride_id := ride_id }, w2)
              ∧ findRide w2 ride_id
                  = some { ride with status := "accepted", updated_at := now }
              ∧ w2.trips = w.trips
                  ++ [{ id := tid, ride_id := ride_id, started_at := some now,
                        paused_at := none, ended_at := none, distance_km := 0,
                        duration_minutes := 0, fare := none }])) := by
  have hsplit : (fun r : Ride => decide (r.id = ride_id ∧ r.driver_id = some driver_id))
      = fun r : Ride => decide (r.id = ride_id) && decide (r.driver_id = some driver_id) := by
    funext r
    by_cases h1 : r.id = ride_id <;> by_cases h2 : r.driver_id = some driver_id <;>
      simp [h1, h2]
  constructor
  · intro h
    unfold accept_ride
    rw [hsplit]
    have h2 : findK Ride.id w.rides ride_id = none := h
    rw [find?_key_and_absent Ride.id w.rides ride_id _ h2]
  · intro ride hr
    have hr2 : findK Ride.id w.rides ride_id = some ride := hr
    refine ⟨?_, ?_, ?_⟩
    · intro hmis
      unfold accept_ride
      rw [hsplit]
      have hp : (fun r : Ride => decide (r.driver_id = some driver_id)) ride = false := by
        simp [hmis]
      rw [find?_key_and_none Ride.id w.rides ride_id ride _ hnd hr2 hp]
    · intro hdid hst
      unfold accept_ride
      rw [hsplit]
      have hp : (fun r : Ride => decide (r.driver_id = some driver_id)) ride = true := by
        simp [hdid]
      rw [find?_key_and_some Ride.id w.rides ride_id ride _ hnd hr2 hp]
      dsimp only
      rw [if_pos hst]
    · intro hdid hst
      unfold accept_ride
      rw [hsplit]
      have hp : (fun r : Ride => decide (r.driver_id = some driver_id)) ride = true := by
        simp [hdid]
      rw [find?_key_and_some Ride.id w.rides ride_id ride _ hnd hr2 hp]
      dsimp only
      rw [if_neg (by simp [hst])]
      refine ⟨_, rfl, ?_, rfl⟩
      simp only [findRide, updRide]
      refine Eq.trans (findK_updF_self _ _ _ _ ?_) ?_
      · intro x; rfl
      · rw [hr2]; rfl

/-- Witness for C3: driver `d1` accepts the concrete matched ride `r3`. -/
theorem accept_ride_spec_witness :
    ∃ w2, accept_ride w3c "d1" "r3" 50 "t9"
        = .ok ({ status := "accepted", trip_id := "t9", ride_id := "r3" }, w2)
      ∧ findRide w2 "r3" = some { r3c with status := "accepted", updated_at := 50 }
      ∧ w2.trips = w3c.trips
          ++ [{ id := "t9", ride_id := "r3", started_at := some 50,
                paused_at := none, ended_at := none, distance_km := 0,
                duration_minutes := 0, fare := none }] :=
  (((accept_ride_spec w3c "d1" "r3" 50 "t9" (by decide)).2 r3c (by rfl)).2.2
    (by rfl) (by rfl))


/-- An unavailable candidate makes `assign_driver_to_ride` raise, and the
transaction leaves no trace (the marker update to `searching` is a
separate, earlier transaction). -/
theorem assign_fails_of_unavailable (w : World) (ride_id d : String) (now : ℕ)
    (f : Ride → Ride) (hd : driverUnavailable w d = true) :
    assign_driver_to_ride (updRide w ride_id f) ride_id d now
      = .error ("Driver no longer available") := by
  unfold assign_driver_to_ride
  rw [findDriver_updRide]
  unfold driverUnavailable at hd
  cases hfd : findDriver w d with
  | none => simp [hfd]
  | some drv =>
    rw [hfd] at hd
    simp only [decide_eq_true_eq] at hd
    simp [hfd, hd]

/-- C4.  Dispatch marks the ride `searching` first; with no matcher
result it marks the ride `cancelled` and stops; with a candidate that is
not `available` at assignment time the assignment fails and the whole
match-and-assign sequence is retried exactly once (never more than two
assignment attempts); if the retry finds nobody or its assignment also
fails, the ride is left in `searching` with its driver reference still
empty, and no third attempt happens. -/
theorem dispatch_spec (env : DispatchEnv) (w : World) (ride_id : String) (now : ℕ)
    (ride : Ride) (hr : findRide w ride_id = some ride)
    (hdnone : ride.driver_id = none) :
    (search_and_match env w ride_id now).2.2 ≤ 2
    ∧ (env.find1 = none →
        (search_and_match env w ride_id now).2.1 = DispatchOutcome.noDriverCancelled
        ∧ findRide (search_and_match env w ride_id now).1 ride_id
            = some { ride with status := "cancelled", updated_at := now })
    ∧ (∀ d1, env.find1 = some d1 → driverUnavailable w d1 = true →
        ((env.find2 = none →
          (search_and_match env w ride_id now).2.1 = DispatchOutcome.retryNoDriver
          ∧ (search_and_match env w ride_id now).2.2 = 1
          ∧ findRide (search_and_match env w ride_id now).1 ride_id
              = some { ride with status := "searching", updated_at := now }
          ∧ (findRide (search_and_match env w ride_id now).1 ride_id).map
              Ride.driver_id = some none)
        ∧ (∀ d2, env.find2 = some d2 → driverUnavailable w d2 = true →
            (search_and_match env w ride_id now).2.2 = 2
            ∧ (search_and_match env w ride_id now).2.1
                = DispatchOutcome.retryAssignRaised ("Driver no longer available")
            ∧ findRide (search_and_match env w ride_id now).1 ride_id
                = some { ride with status := "searching", updated_at := now }
            ∧ (findRide (search_and_match env w ride_id now).1 ride_id).map
                Ride.driver_id = some none))) := by
  have hr2 : findK Ride.id w.rides ride_id = some ride := hr
  have hfind1 : findRide (updRide w ride_id (fun r =>
      { r with status := "searching", updated_at := now })) ride_id
      = some { ride with status := "searching", updated_at := now } := by
    simp only [findRide, updRide]
    refine Eq.trans (findK_updF_self _ _ _ _ ?_) ?_
    · intro x; rfl
    · rw [hr2]; rfl
  have hfind1K : findK Ride.id (updF Ride.id w.rides ride_id (fun r =>
      { r with status := "searching", updated_at := now })) ride_id
      = some { ride with status := "searching", updated_at := now } := hfind1
  refine ⟨?_, ?_, ?_⟩
  · unfold search_and_match
    dsimp only
    split
    · simp
    · split
      · simp
      · split
        · simp
        · split <;> simp
  · intro h1
    unfold search_and_match
    dsimp only
    rw [h1]
    refine ⟨rfl, ?_⟩
    simp only [findRide, updRide]
    refine Eq.trans (findK_updF_self _ _ _ _ ?_) ?_
    · intro x; rfl
    · rw [hfind1K]; rfl
  · intro d1 h1 hu1
    have ha1 := assign_fails_of_unavailable w ride_id d1 now
      (fun r => { r with status := "searching", updated_at := now }) hu1
    constructor
    · intro h2
      unfold search_and_match
      dsimp only
      rw [h1]
      dsimp only
      rw [ha1]
      dsimp only
      rw [h2]
      exact ⟨rfl, rfl, hfind1, by rw [hfind1]; simp [hdnone]⟩
    · intro d2 h2 hu2
      have ha2 := assign_fails_of_unavailable w ride_id d2 now
        (fun r => { r with status := "searching", updated_at := now }) hu2
      unfold search_and_match
      dsimp only
      rw [h1]
      dsimp only
      rw [ha1]
      dsimp only
      rw [h2]
      dsimp only
      rw [ha2]
      exact ⟨rfl, rfl, hfind1, by rw [hfind1]; simp [hdnone]⟩

/-- Witness for C4: the matcher twice returns driver `d1`, who is
already `on_trip`; the ride `r4` ends still `searching`, driverless,
after exactly two assignment attempts. -/
theorem dispatch_spec_witness :
    (search_and_match ⟨some "d1", some "d1"⟩ w4c "r4" 60).2.2 = 2
    ∧ (search_and_match ⟨some "d1", some "d1"⟩ w4c "r4" 60).2.1
        = DispatchOutcome.retryAssignRaised ("Driver no longer available")
    ∧ findRide (search_and_match ⟨some "d1", some "d1"⟩ w4c "r4" 60).1 "r4"
        = some { r4c with status := "searching", updated_at := 60 }
    ∧ (findRide (search_and_match ⟨some "d1", some "d1"⟩ w4c "r4" 60).1 "r4").map
        Ride.driver_id = some none :=
  ((dispatch_spec ⟨some "d1", some "d1"⟩ w4c "r4" 60 r4c (by rfl) (by rfl)).2.2
    "d1" (by rfl) (by rfl)).2 "d1" (by rfl) (by rfl)


/-- After a first create-ride call that actually executes (no live cached
response), the returned response sits in the idempotency cache under the
token with a 24-hour expiry. -/
theorem create_ride_caches (dist : ℚ → ℚ → ℚ → ℚ → ℚ) (w : World) (p : RideCreate)
    (now : ℕ) (new_id : String) (k : String)
    (hk : p.idempotency_key = some k) (hk0 : k ≠ "")
    (hmiss : liveIdemRide w k now = none) :
    findK IdemRideEntry.token (create_ride dist w p now new_id).2.1.idemRides k
      = some ⟨k, (create_ride dist w p now new_id).1, now + 86400⟩ := by
  have htr : strTruthy p.idempotency_key = some k := by
    rw [hk]; simp [strTruthy, hk0]
  unfold create_ride
  rw [htr]
  dsimp only
  rw [hmiss]
  dsimp only
  exact findK_filter_ne_append _ _ _ _ rfl

/-- C5.  With a client token: a second create-ride call with the same
payload within the 24-hour window returns the first call's stored
response verbatim, leaves the world untouched, and schedules no
background work; and the `ON CONFLICT` insert keeps at most one ride row
per token - with an existing row for the token the table is unchanged. -/
theorem create_ride_idem_spec :
    (∀ (dist : ℚ → ℚ → ℚ → ℚ → ℚ) (w : World) (p : RideCreate)
        (now1 : ℕ) (id1 : String) (now2 : ℕ) (id2 : String) (k : String),
      p.idempotency_key = some k → k ≠ "" →
      liveIdemRide w k now1 = none →
      now2 < now1 + 86400 →
      create_ride dist (create_ride dist w p now1 id1).2.1 p now2 id2
        = ((create_ride dist w p now1 id1).1,
           (create_ride dist w p now1 id1).2.1, false))
    ∧ (∀ (dist : ℚ → ℚ → ℚ → ℚ → ℚ) (w : World) (p : RideCreate)
        (now : ℕ) (new_id : String) (k : String),
      p.idempotency_key = some k →
      ((w.rides.countP (fun r => decide (r.idempotency_key = some k)) ≤ 1 →
        (create_ride dist w p now new_id).2.1.rides.countP
          (fun r => decide (r.idempotency_key = some k)) ≤ 1)
      ∧ (∀ r0, r0 ∈ w.rides → r0.idempotency_key = some k →
          (create_ride dist w p now new_id).2.1.rides = w.rides))) := by
  constructor
  · intro dist w p now1 id1 now2 id2 k hk hk0 hmiss hwin
    have htr : strTruthy p.idempotency_key = some k := by
      rw [hk]; simp [strTruthy, hk0]
    have hcache := create_ride_caches dist w p now1 id1 k hk hk0 hmiss
    set c1 := create_ride dist w p now1 id1 with hc1
    unfold create_ride
    rw [htr]
    dsimp only
    unfold liveIdemRide
    rw [hcache]
    dsimp only
    rw [if_pos hwin]
  · intro dist w p now new_id k hk
    unfold create_ride
    cases hst : strTruthy p.idempotency_key with
    | some k2 =>
      dsimp only
      cases hlive : liveIdemRide w k2 now with
      | some r =>
        dsimp only
        exact ⟨fun h => h, fun _ _ _ => rfl⟩
      | none =>
        dsimp only
        rw [hk]
        dsimp only
        cases hcr : w.rides.find? (fun r => decide (r.idempotency_key = some k)) with
        | some r =>
          dsimp only
          exact ⟨fun h => h, fun _ _ _ => rfl⟩
        | none =>
          dsimp only
          rw [List.find?_eq_none] at hcr
          have hzero : w.rides.countP (fun r => decide (r.idempotency_key = some k)) = 0 := by
            rw [List.countP_eq_zero]
            intro a ha
            simpa using hcr a ha
          constructor
          · intro _
            simp only [setIdemRide]
            rw [List.countP_append, hzero]
            simp [hk]
          · intro r0 hr0 htok
            exact absurd (by simpa using hcr r0 hr0) (by simp [htok])
    | none =>
      dsimp only
      rw [hk]
      dsimp only
      cases hcr : w.rides.find? (fun r => decide (r.idempotency_key = some k)) with
      | some r =>
        dsimp only
        exact ⟨fun h => h, fun _ _ _ => rfl⟩
      | none =>
        dsimp only
        rw [List.find?_eq_none] at hcr
        have hzero : w.rides.countP (fun r => decide (r.idempotency_key = some k)) = 0 := by
          rw [List.countP_eq_zero]
          intro a ha
          simpa using hcr a ha
        constructor
        · intro _
          rw [List.countP_append, hzero]
          simp [hk]
        · intro r0 hr0 htok
          exact absurd (by simpa using hcr r0 hr0) (by simp [htok])

/-- Witness for C5: on the empty world, two calls with token `tok1`
(second one 100 s later) return identical responses with one persisted
ride, and an insert against the existing row leaves the table as is. -/
theorem create_ride_idem_spec_witness :
    (create_ride (fun _ _ _ _ => 5) ((create_ride (fun _ _ _ _ => 5) w5c p5c 0 "rA").2.1)
        p5c 100 "rB"
      = ((create_ride (fun _ _ _ _ => 5) w5c p5c 0 "rA").1,
         (create_ride (fun _ _ _ _ => 5) w5c p5c 0 "rA").2.1, false))
    ∧ ((create_ride (fun _ _ _ _ => 5) w5c p5c 0 "rA").2.1.rides.countP
        (fun r => decide (r.idempotency_key = some "tok1")) ≤ 1) := by
  constructor
  · exact create_ride_idem_spec.1 (fun _ _ _ _ => 5) w5c p5c 0 "rA" 100 "rB" "tok1"
      (by decide) (by decide) (by rfl) (by decide)
  · exact (create_ride_idem_spec.2 (fun _ _ _ _ => 5) w5c p5c 0 "rA" "tok1"
      (by decide)).1 (by decide)


/-- C8 (violation).  `pause_trip` never reads the ride's status: on the
concrete world `w8c`, whose ride `r8` is in the terminal state
`completed` (with trip `t8`), `pause_trip` succeeds and moves the ride
back to `paused`, contradicting terminality. -/
theorem pause_trip_mutates_completed_ride :
    (findRide w8c "r8").map Ride.status = some "completed"
    ∧ ∃ q, pause_trip w8c "t8" 200 = .ok q
        ∧ (findRide q.2 "r8").map Ride.status = some "paused" :=
  ⟨rfl, ⟨_, rfl, rfl⟩⟩

/-- C9 (violation).  `update_driver_status` never reads the driver's
current status: on the concrete world `w9c`, whose driver `d1` is
`on_trip`, the set-status command succeeds and moves the driver to
`offline` outside any trip completion. -/
theorem update_driver_status_moves_on_trip_driver :
    (findDriver w9c "d1").map Driver.status = some "on_trip"
    ∧ ∃ q, update_driver_status w9c "d1" (some "offline") = .ok q
        ∧ (findDriver q.2 "d1").map Driver.status = some "offline" :=
  ⟨rfl, ⟨_, rfl, rfl⟩⟩

/-- Python's `final_fare or estimated_fare or 0` agrees with
"final fare if present else estimated fare" whenever a present final
fare is nonzero. -/
theorem pyFloatOrZero_eq_getD (a b : Option ℚ) (ha : ∀ x, a = some x → x ≠ 0) :
    pyFloatOrZero a b = a.getD (b.getD 0) := by
  cases a with
  | some x =>
    have hx := ha x rfl
    simp [pyFloatOrZero, pyOrQ, hx]
  | none =>
    cases b with
    | some y =>
      by_cases hy : y = 0 <;> simp [pyFloatOrZero, pyOrQ, hy]
    | none => simp [pyFloatOrZero, pyOrQ]

/-- C10.  `create_payment` (first occurrence of its token) fails with
NotFound for an unknown ride, with Conflict for a ride not `completed`,
and for a `completed` ride inserts a payment in `pending` status whose
amount is `final_fare` if present else `estimated_fare` (the system
never stores a zero `final_fare`, hypothesis `hff`). -/
theorem create_payment_spec (w : World) (p : PaymentCreate) (now : ℕ)
    (new_id : String) (hm : cachedPaymentResp w p now = none) :
    (findRide w p.ride_id = none →
      create_payment w p now new_id = .error (ApiError.notFound ("Ride not found")))
    ∧ ∀ ride, findRide w p.ride_id = some ride →
        ((ride.status ≠ "completed" →
          create_payment w p now new_id
            = .error (ApiError.conflict ("Ride must be completed before payment")))
        ∧ (ride.status = "completed" →
          (∀ x, ride.final_fare = some x → x ≠ 0) →
          paymentConflictRow w p = none →
          ∃ w2, create_payment w p now new_id
              = .ok ({ id := new_id, ride_id := p.ride_id,
                       rider_id := ride.rider_id,
                       amount := ride.final_fare.getD (ride.estimated_fare.getD 0),
                       method := ride.payment_method, status := "pending",
                       psp_ref := none,
                       idempotency_key := p.idempotency_key }, w2, true)
            ∧ w2.payments = w.payments
                ++ [{ id := new_id, ride_id := p.ride_id,
                      rider_id := ride.rider_id,
                      amount := ride.final_fare.getD (ride.estimated_fare.getD 0),
                      method := ride.payment_method, status := "pending",
                      psp_ref := none,
                      idempotency_key := p.idempotency_key }])) := by
  constructor
  · intro h
    unfold create_payment
    rw [hm, h]
  · intro ride hr
    constructor
    · intro hst
      unfold create_payment
      rw [hm, hr]
      dsimp only
      rw [if_pos hst]
    · intro hst hff hconf
      unfold create_payment
      rw [hm, hr]
      dsimp only
      rw [if_neg (by simp [hst])]
      rw [pyFloatOrZero_eq_getD ride.final_fare ride.estimated_fare hff]
      rw [hconf]
      cases hstp : strTruthy p.idempotency_key with
      | some k =>
        dsimp only
        exact ⟨_, rfl, rfl⟩
      | none =>
        dsimp only
        exact ⟨_, rfl, rfl⟩

/-- Witness for C10: paying for the concrete completed ride `r8` creates
a pending payment of its final fare 150. -/
theorem create_payment_spec_witness :
    ∃ w2, create_payment w10c p10c 0 "pay1"
        = .ok ({ id := "pay1", ride_id := "r8", rider_id := r8c.rider_id,
                 amount := r8c.final_fare.getD (r8c.estimated_fare.getD 0),
                 method := r8c.payment_method, status := "pending",
                 psp_ref := none, idempotency_key := some "ptok" }, w2, true)
      ∧ w2.payments = w10c.payments
          ++ [{ id := "pay1", ride_id := "r8", rider_id := r8c.rider_id,
                amount := r8c.final_fare.getD (r8c.estimated_fare.getD 0),
                method := r8c.payment_method, status := "pending",
                psp_ref := none, idempotency_key := some "ptok" }] :=
  ((create_payment_spec w10c p10c 0 "pay1" (by rfl)).2 r8c (by rfl)).2
    (by rfl)
    (fun x hx => by
      have h150 : some (150 : ℚ) = some x := hx
      injection h150 with h
      rw [← h]
      decide)
    (by rfl)


end GocometRide
